import Mathlib

/-!
Shallow embedding of the MumenController input-to-report pipeline.

Modelling conventions:
* Rust fixed-size arrays (`[T; n]`) are Lean `List T` values; indexed reads
  use `List.getD` (out-of-range reads yield the same defaults the Rust code
  substitutes), and writes use `List.set` (a no-op out of range, matching the
  bounds guards in the source).
* `u8`/`u16`/`usize` are `Nat`; `i32` is `Int` (all `i32` intermediates in the
  pipeline stay far inside the `i32` range for the inputs considered here, so
  no 2^32 wrap is modelled).  Where `u8` arithmetic can overflow, the
  operation is modelled checked (`Option Nat`, `none` = overflow panic of a
  debug build), and the lossy `as u8` cast is an explicit `% 256`.
* `f32` is modelled as `ℚ` (exact arithmetic; the literal `0.3` becomes
  `3/10`), and the `f32 as i32` cast as truncation toward zero.
-/

/-- Debouncer state: `src/util/debounce.rs`. -/
structure Debouncer where
  current_state : Bool
  counter : Nat
  threshold : Nat
deriving DecidableEq, Repr

/-- `Debouncer::new`: released state, counter 0, threshold 3. -/
def Debouncer.new : Debouncer :=
  { current_state := false, counter := 0, threshold := 3 }

/-- `Debouncer::with_threshold`. -/
def Debouncer.with_threshold (threshold : Nat) : Debouncer :=
  { current_state := false, counter := 0, threshold := threshold }

/-- `Debouncer::update`: returns the reported state after the sample and the
updated debouncer.  `counter.saturating_add(1)` on `u8` is `min (counter+1) 255`. -/
def Debouncer.update (d : Debouncer) (sample : Bool) : Bool × Debouncer :=
  if sample = d.current_state then
    (d.current_state, { d with counter := 0 })
  else
    let c := min (d.counter + 1) 255
    if d.threshold ≤ c then
      (sample, { d with current_state := sample, counter := 0 })
    else
      (d.current_state, { d with counter := c })

/-- Feed a sequence of samples to a debouncer, collecting the outputs. -/
def Debouncer.run (d : Debouncer) (samples : List Bool) : List Bool × Debouncer :=
  samples.foldl (fun acc s =>
    let r := acc.2.update s
    (acc.1 ++ [r.1], r.2)) ([], d)

/-- SOCD resolution methods: `src/input/socd.rs`. -/
inductive SocdMethod where
  | Neutral
  | LastWin
  | FirstWin
  | UpPriority
  | SecondInputPriority
deriving DecidableEq, Repr

/-- SOCD handler state: `last_states` is `[left, right, up, down]`,
`first_input_order` is `[left/right order, up/down order]`. -/
structure SocdHandler where
  left_right_method : SocdMethod
  up_down_method : SocdMethod
  last_states : List Bool
  first_input_order : List Bool
deriving DecidableEq, Repr

/-- `SocdHandler::new`: Neutral for left/right, UpPriority for up/down. -/
def SocdHandler.new : SocdHandler :=
  { left_right_method := SocdMethod.Neutral
    up_down_method := SocdMethod.UpPriority
    last_states := List.replicate 4 false
    first_input_order := List.replicate 2 true }

/-- `SocdHandler::with_methods`. -/
def SocdHandler.with_methods (left_right up_down : SocdMethod) : SocdHandler :=
  { left_right_method := left_right
    up_down_method := up_down
    last_states := List.replicate 4 false
    first_input_order := List.replicate 2 true }

/-- `SocdHandler::resolve_left_right` (pure reader of the handler state). -/
def SocdHandler.resolve_left_right (h : SocdHandler) (_left _right : Bool) : Bool × Bool :=
  match h.left_right_method with
  | SocdMethod.Neutral => (false, false)
  | SocdMethod.LastWin =>
      if h.last_states.getD 0 false && !(h.last_states.getD 1 false) then
        (false, true)
      else if !(h.last_states.getD 0 false) && h.last_states.getD 1 false then
        (true, false)
      else
        (false, true)
  | SocdMethod.FirstWin =>
      if h.first_input_order.getD 0 false then (true, false) else (false, true)
  | SocdMethod.SecondInputPriority =>
      if h.last_states.getD 0 false && !(h.last_states.getD 1 false) then
        (false, true)
      else if !(h.last_states.getD 0 false) && h.last_states.getD 1 false then
        (true, false)
      else
        (false, false)
  | SocdMethod.UpPriority => (false, false)

/-- `SocdHandler::resolve_up_down` (pure reader of the handler state). -/
def SocdHandler.resolve_up_down (h : SocdHandler) (_up _down : Bool) : Bool × Bool :=
  match h.up_down_method with
  | SocdMethod.Neutral => (false, false)
  | SocdMethod.UpPriority => (true, false)
  | SocdMethod.LastWin =>
      if h.last_states.getD 2 false && !(h.last_states.getD 3 false) then
        (false, true)
      else if !(h.last_states.getD 2 false) && h.last_states.getD 3 false then
        (true, false)
      else
        (true, false)
  | SocdMethod.FirstWin =>
      if h.first_input_order.getD 1 false then (true, false) else (false, true)
  | SocdMethod.SecondInputPriority =>
      if h.last_states.getD 2 false && !(h.last_states.getD 3 false) then
        (false, true)
      else if !(h.last_states.getD 2 false) && h.last_states.getD 3 false then
        (true, false)
      else
        (false, false)

/-- `SocdHandler::resolve`: returns `(left, right, up, down)` resolved, plus the
updated handler (first-input order updates in the no-conflict branches, then
`last_states` is overwritten with the raw inputs). -/
def SocdHandler.resolve (h : SocdHandler) (left right up down : Bool) :
    (Bool × Bool × Bool × Bool) × SocdHandler :=
  let lrRes :=
    if left && right then (h.resolve_left_right left right, h)
    else
      let h1 :=
        if left && !right && !(h.last_states.getD 0 false) then
          { h with first_input_order := h.first_input_order.set 0 true }
        else if !left && right && !(h.last_states.getD 1 false) then
          { h with first_input_order := h.first_input_order.set 0 false }
        else h
      ((left, right), h1)
  let h1 := lrRes.2
  let udRes :=
    if up && down then (h1.resolve_up_down up down, h1)
    else
      let h2 :=
        if up && !down && !(h1.last_states.getD 2 false) then
          { h1 with first_input_order := h1.first_input_order.set 1 true }
        else if !up && down && !(h1.last_states.getD 3 false) then
          { h1 with first_input_order := h1.first_input_order.set 1 false }
        else h1
      ((up, down), h2)
  let h2 := udRes.2
  let h3 :=
    { h2 with last_states := (((h2.last_states.set 0 left).set 1 right).set 2 up).set 3 down }
  ((lrRes.1.1, lrRes.1.2, udRes.1.1, udRes.1.2), h3)

/-- `SocdHandler::to_hat_value`: argument order is `(up, right, down, left)`. -/
def SocdHandler.to_hat_value (_h : SocdHandler) (up right down left : Bool) : Nat :=
  match up, right, down, left with
  | true, false, false, false => 0
  | true, true, false, false => 1
  | false, true, false, false => 2
  | false, true, true, false => 3
  | false, false, true, false => 4
  | false, false, true, true => 5
  | false, false, false, true => 6
  | true, false, false, true => 7
  | _, _, _, _ => 8

/-- Lockable menu buttons: `src/input/lock.rs`. -/
inductive LockableButton where
  | Home
  | Plus
  | Minus
  | Capture
deriving DecidableEq, Repr

/-- `LockableButton::to_index`: index in the 14-entry report button array. -/
def LockableButton.to_index : LockableButton → Nat
  | LockableButton.Home => 12
  | LockableButton.Plus => 9
  | LockableButton.Minus => 8
  | LockableButton.Capture => 13

/-- `MAX_LOCKABLE_BUTTONS`. -/
def MAX_LOCKABLE_BUTTONS : Nat := 4

/-- Lock handler state: `src/input/lock.rs`. -/
structure LockHandler where
  lock_active : Bool
  lock_pin : Nat
  active_high : Bool
  locked_buttons : List (Option LockableButton)
  button_count : Nat
deriving DecidableEq, Repr

/-- `LockHandler::add_button`: returns whether the button was added, plus the
updated handler (no-op returning `false` when the fixed-size set is full). -/
def LockHandler.add_button (h : LockHandler) (button : LockableButton) : Bool × LockHandler :=
  if h.button_count < MAX_LOCKABLE_BUTTONS then
    (true, { h with locked_buttons := h.locked_buttons.set h.button_count (some button)
                    button_count := h.button_count + 1 })
  else
    (false, h)

/-- `LockHandler::new`: inactive, pin 33, active-high, then the default locked
buttons Home, Plus, Minus are added in order. -/
def LockHandler.new : LockHandler :=
  let handler : LockHandler :=
    { lock_active := false
      lock_pin := 33
      active_high := true
      locked_buttons := List.replicate 4 none
      button_count := 0 }
  let handler := (handler.add_button LockableButton.Home).2
  let handler := (handler.add_button LockableButton.Plus).2
  let handler := (handler.add_button LockableButton.Minus).2
  handler

/-- `LockHandler::update_lock_state`. -/
def LockHandler.update_lock_state (h : LockHandler) (pin_state : Bool) : LockHandler :=
  { h with lock_active := if h.active_high then pin_state else !pin_state }

/-- `LockHandler::process`: copy of the 14-entry button array with every
configured locked button forced to `false` when the lock is active. -/
def LockHandler.process (h : LockHandler) (button_states : List Bool) : List Bool :=
  if h.lock_active then
    (List.range h.button_count).foldl
      (fun result i =>
        match h.locked_buttons.getD i none with
        | some button =>
            if button.to_index < result.length then result.set button.to_index false else result
        | none => result)
      button_states
  else
    button_states

/-- Controller buttons: `src/input/digital.rs`. -/
inductive ControllerButton where
  | A
  | B
  | X
  | Y
  | L
  | R
  | ZL
  | ZR
  | Plus
  | Minus
  | Home
  | Capture
  | L3
  | R3
  | DpadUp
  | DpadDown
  | DpadLeft
  | DpadRight
deriving DecidableEq, Repr

/-- `button_to_report_index`: report-array index of each non-D-pad button
(D-pad buttons fall through to 0, a branch the handler never takes for them). -/
def button_to_report_index : ControllerButton → Nat
  | ControllerButton.A => 0
  | ControllerButton.B => 1
  | ControllerButton.X => 2
  | ControllerButton.Y => 3
  | ControllerButton.L => 4
  | ControllerButton.R => 5
  | ControllerButton.ZL => 6
  | ControllerButton.ZR => 7
  | ControllerButton.Minus => 8
  | ControllerButton.Plus => 9
  | ControllerButton.L3 => 10
  | ControllerButton.R3 => 11
  | ControllerButton.Home => 12
  | ControllerButton.Capture => 13
  | _ => 0

/-- Digital input handler state: `src/input/digital.rs`. -/
structure DigitalInputHandler where
  debouncers : List Debouncer
  button_mapping : List (Nat × ControllerButton)
  button_states : List Bool
deriving DecidableEq, Repr

/-- The default pin-to-button mapping of `DigitalInputHandler::new`. -/
def default_button_mapping : List (Nat × ControllerButton) :=
  [(2, ControllerButton.A), (3, ControllerButton.B), (4, ControllerButton.X),
   (5, ControllerButton.Y), (6, ControllerButton.L), (7, ControllerButton.R),
   (8, ControllerButton.ZL), (9, ControllerButton.ZR), (10, ControllerButton.Plus),
   (11, ControllerButton.Minus), (12, ControllerButton.Home), (14, ControllerButton.Capture),
   (15, ControllerButton.L3), (16, ControllerButton.R3), (17, ControllerButton.DpadUp),
   (18, ControllerButton.DpadDown), (19, ControllerButton.DpadLeft),
   (20, ControllerButton.DpadRight)]

/-- `DigitalInputHandler::new`: 18 fresh debouncers, default mapping, all released. -/
def DigitalInputHandler.new : DigitalInputHandler :=
  { debouncers := List.replicate 18 Debouncer.new
    button_mapping := default_button_mapping
    button_states := List.replicate 18 false }

/-- `DigitalInputHandler::update`: debounces each mapped pin (out-of-range pin
indices read as not-pressed) and routes the result into the 14-entry button
array or the 4-entry D-pad array `[up, down, left, right]`. -/
def DigitalInputHandler.update (h : DigitalInputHandler) (pins_state : List Bool) :
    (List Bool × List Bool) × DigitalInputHandler :=
  (List.range h.button_mapping.length).foldl
    (fun acc i =>
      let hh := acc.2
      let pm := hh.button_mapping.getD i (0, ControllerButton.A)
      let pin_value := pins_state.getD pm.1 false
      let db := (hh.debouncers.getD i Debouncer.new).update pin_value
      let hh' := { hh with debouncers := hh.debouncers.set i db.2
                           button_states := hh.button_states.set i db.1 }
      match pm.2 with
      | ControllerButton.DpadUp => ((acc.1.1, acc.1.2.set 0 db.1), hh')
      | ControllerButton.DpadDown => ((acc.1.1, acc.1.2.set 1 db.1), hh')
      | ControllerButton.DpadLeft => ((acc.1.1, acc.1.2.set 2 db.1), hh')
      | ControllerButton.DpadRight => ((acc.1.1, acc.1.2.set 3 db.1), hh')
      | b =>
          let index := button_to_report_index b
          (((if index < acc.1.1.length then acc.1.1.set index db.1 else acc.1.1), acc.1.2), hh'))
    ((List.replicate 14 false, List.replicate 4 false), h)

/-- HID report: `src/usb/descriptor.rs`. -/
structure SwitchProReport where
  buttons : List Bool
  hat : Nat
  left_stick_x : Nat
  left_stick_y : Nat
  right_stick_x : Nat
  right_stick_y : Nat
  vendor_spec : Nat
deriving DecidableEq, Repr

/-- `SwitchProReport::new`: no buttons, hat released (8), sticks centered. -/
def SwitchProReport.new : SwitchProReport :=
  { buttons := List.replicate 16 false
    hat := 8
    left_stick_x := 128
    left_stick_y := 128
    right_stick_x := 128
    right_stick_y := 128
    vendor_spec := 0 }

/-- `SwitchProReport::to_bytes`: 8 bytes; buttons packed little-endian into
bytes 0-1, the HAT nibble in byte 2 (8/released serialized as `0x0F`), the four
stick bytes at positions 3-6 and the vendor byte at position 7. -/
def SwitchProReport.to_bytes (r : SwitchProReport) : List Nat :=
  let bb := (List.range 16).foldl
    (fun (bb : Nat × Nat) i =>
      if r.buttons.getD i false then
        if i < 8 then (bb.1 ||| (1 <<< i), bb.2) else (bb.1, bb.2 ||| (1 <<< (i - 8)))
      else bb)
    (0, 0)
  let hat_value := if r.hat ≤ 7 then r.hat else 15
  [bb.1, bb.2, hat_value &&& 15,
   r.left_stick_x, r.left_stick_y, r.right_stick_x, r.right_stick_y, r.vendor_spec]

/-- `SwitchProReport::set_button` (bounds-guarded). -/
def SwitchProReport.set_button (r : SwitchProReport) (index : Nat) (pressed : Bool) : SwitchProReport :=
  if index < r.buttons.length then { r with buttons := r.buttons.set index pressed } else r

/-- `SwitchProReport::set_hat`: values above 7 are stored as 8 (released). -/
def SwitchProReport.set_hat (r : SwitchProReport) (direction : Nat) : SwitchProReport :=
  { r with hat := if direction ≤ 7 then direction else 8 }

/-- Controller snapshot: `src/input/mod.rs`. -/
structure ControllerState where
  button_states : List Bool
  dpad_states : List Bool
  left_stick : Nat × Nat
  right_stick : Nat × Nat
deriving DecidableEq, Repr

/-- `ControllerState::new`: everything released, sticks centered. -/
def ControllerState.new : ControllerState :=
  { button_states := List.replicate 14 false
    dpad_states := List.replicate 4 false
    left_stick := (128, 128)
    right_stick := (128, 128) }

/-- `ControllerState::to_report`: sets the 14 buttons, derives the HAT value by
matching the tuple `(dpad[0], dpad[3], dpad[1], dpad[2])` against the source's
patterns, and copies the stick bytes. -/
def ControllerState.to_report (s : ControllerState) : SwitchProReport :=
  let report := SwitchProReport.new
  let report := (List.range s.button_states.length).foldl
    (fun r i => r.set_button i (s.button_states.getD i false)) report
  let hat : Nat :=
    match s.dpad_states.getD 0 false, s.dpad_states.getD 3 false,
          s.dpad_states.getD 1 false, s.dpad_states.getD 2 false with
    | true, false, false, false => 0
    | true, false, false, true => 1
    | false, false, false, true => 2
    | false, true, false, true => 3
    | false, true, false, false => 4
    | false, true, true, false => 5
    | false, false, true, false => 6
    | true, false, true, false => 7
    | _, _, _, _ => 8
  let report := report.set_hat hat
  { report with
      left_stick_x := s.left_stick.1
      left_stick_y := s.left_stick.2
      right_stick_x := s.right_stick.1
      right_stick_y := s.right_stick.2 }

/-- Rust `f32 as i32` cast: truncation toward zero (values here stay far inside
the `i32` range, so the cast's saturation is not modelled). -/
def f32_as_i32 (q : ℚ) : Int :=
  if 0 ≤ q then ⌊q⌋ else -⌊-q⌋

/-- Rust `i32 as u8` cast: the low 8 bits, i.e. the value modulo 256. -/
def i32_as_u8 (x : Int) : Nat :=
  (x % 256).toNat

/-- Checked `u8` addition: `none` models the overflow panic of a debug build
(a release build would instead wrap modulo 256). -/
def u8_checked_add (a b : Nat) : Option Nat :=
  if a + b ≤ 255 then some (a + b) else none

/-- Checked `u8` subtraction: `none` models the underflow panic of a debug
build. -/
def u8_checked_sub (a b : Nat) : Option Nat :=
  if b ≤ a then some (a - b) else none

/-- One axis of the piecewise range mapping in
`AnalogInputHandler::process_input` (the x and y axes run identical code):
below center maps `[min,center]` toward `[0,128]` with multiplier 128, at/above
center maps `[center,max]` toward `[128,255]` with multiplier 127, each side
guarded against a zero-width segment.  Rust `i32` division truncates toward
zero (`Int.tdiv`); the `as u8` cast and the `u8` add/sub are modelled as in
the helpers above. -/
def map_axis (filtered center minv maxv : Int) : Option Nat :=
  if filtered < center then
    let range := center - minv
    if range = 0 then some 128
    else u8_checked_sub 128 (i32_as_u8 (Int.tdiv ((center - filtered) * 128) range))
  else
    let range := maxv - center
    if range = 0 then some 128
    else u8_checked_add 128 (i32_as_u8 (Int.tdiv ((filtered - center) * 127) range))

/-- Analog stick selector: `src/input/analog.rs`. -/
inductive AnalogStick where
  | Left
  | Right
deriving DecidableEq, Repr

/-- Analog input handler state: `src/input/analog.rs` (`f32` fields as `ℚ`). -/
structure AnalogInputHandler where
  left_center_x : Nat
  left_center_y : Nat
  left_min_x : Nat
  left_min_y : Nat
  left_max_x : Nat
  left_max_y : Nat
  right_center_x : Nat
  right_center_y : Nat
  right_min_x : Nat
  right_min_y : Nat
  right_max_x : Nat
  right_max_y : Nat
  deadzone : Nat
  filter_alpha : ℚ
  left_filtered_x : ℚ
  left_filtered_y : ℚ
  right_filtered_x : ℚ
  right_filtered_y : ℚ

/-- `AnalogInputHandler::new`: 10-bit-ADC default calibration, deadzone 50,
filter alpha 0.3, filter memory at center. -/
def AnalogInputHandler.new : AnalogInputHandler :=
  { left_center_x := 512, left_center_y := 512
    left_min_x := 0, left_min_y := 0
    left_max_x := 1023, left_max_y := 1023
    right_center_x := 512, right_center_y := 512
    right_min_x := 0, right_min_y := 0
    right_max_x := 1023, right_max_y := 1023
    deadzone := 50
    filter_alpha := 3 / 10
    left_filtered_x := 512, left_filtered_y := 512
    right_filtered_x := 512, right_filtered_y := 512 }

/-- `AnalogInputHandler::apply_filter`: exponential low-pass per axis, with the
filter memory of the selected stick updated in place. -/
def AnalogInputHandler.apply_filter (h : AnalogInputHandler) (stick : AnalogStick) (x y : ℚ) :
    (ℚ × ℚ) × AnalogInputHandler :=
  match stick with
  | AnalogStick.Left =>
      let fx := h.left_filtered_x * (1 - h.filter_alpha) + x * h.filter_alpha
      let fy := h.left_filtered_y * (1 - h.filter_alpha) + y * h.filter_alpha
      ((fx, fy), { h with left_filtered_x := fx, left_filtered_y := fy })
  | AnalogStick.Right =>
      let fx := h.right_filtered_x * (1 - h.filter_alpha) + x * h.filter_alpha
      let fy := h.right_filtered_y * (1 - h.filter_alpha) + y * h.filter_alpha
      ((fx, fy), { h with right_filtered_x := fx, right_filtered_y := fy })

/-- `AnalogInputHandler::apply_deadzone`: snap to center inside the deadzone,
else shift the offset magnitude down by the deadzone width, keeping its sign. -/
def AnalogInputHandler.apply_deadzone (h : AnalogInputHandler) (value center : Int) : Int :=
  let offset := value - center
  if offset.natAbs < h.deadzone then
    center
  else
    let sign : Int := if 0 ≤ offset then 1 else -1
    center + sign * ((offset.natAbs : Int) - (h.deadzone : Int))

/-- `AnalogInputHandler::process_input`: deadzone, low-pass filter, then the
piecewise range mapping per axis; `none` models a `u8` overflow panic inside
the mapping.  The trailing `clamp(0,255)` of the source is the identity on a
`u8` and is modelled by `min _ 255`. -/
def AnalogInputHandler.process_input (h : AnalogInputHandler) (stick : AnalogStick)
    (raw_x raw_y : Nat) : Option ((Nat × Nat) × AnalogInputHandler) :=
  let p :=
    match stick with
    | AnalogStick.Left =>
        (h.left_center_x, h.left_center_y, h.left_min_x, h.left_min_y, h.left_max_x, h.left_max_y)
    | AnalogStick.Right =>
        (h.right_center_x, h.right_center_y, h.right_min_x, h.right_min_y, h.right_max_x,
         h.right_max_y)
  let center_x : Int := p.1
  let center_y : Int := p.2.1
  let min_x : Int := p.2.2.1
  let min_y : Int := p.2.2.2.1
  let max_x : Int := p.2.2.2.2.1
  let max_y : Int := p.2.2.2.2.2
  let x_with_deadzone := h.apply_deadzone (raw_x : Int) center_x
  let y_with_deadzone := h.apply_deadzone (raw_y : Int) center_y
  let fres := h.apply_filter stick (x_with_deadzone : ℚ) (y_with_deadzone : ℚ)
  let x_filtered := f32_as_i32 fres.1.1
  let y_filtered := f32_as_i32 fres.1.2
  match map_axis x_filtered center_x min_x max_x, map_axis y_filtered center_y min_y max_y with
  | some mx, some my => some ((min mx 255, min my 255), fres.2)
  | _, _ => none

/-- `AnalogInputHandler::process_left_stick`. -/
def AnalogInputHandler.process_left_stick (h : AnalogInputHandler) (raw_x raw_y : Nat) :
    Option ((Nat × Nat) × AnalogInputHandler) :=
  h.process_input AnalogStick.Left raw_x raw_y

/-- `AnalogInputHandler::process_right_stick`. -/
def AnalogInputHandler.process_right_stick (h : AnalogInputHandler) (raw_x raw_y : Nat) :
    Option ((Nat × Nat) × AnalogInputHandler) :=
  h.process_input AnalogStick.Right raw_x raw_y

/-- `AnalogInputHandler::update`: missing ADC entries default to 512 (center),
then both sticks are processed in order. -/
def AnalogInputHandler.update (h : AnalogInputHandler) (adc_values : List Nat) :
    Option (((Nat × Nat) × (Nat × Nat)) × AnalogInputHandler) :=
  let left_x := adc_values.getD 0 512
  let left_y := adc_values.getD 1 512
  let right_x := adc_values.getD 2 512
  let right_y := adc_values.getD 3 512
  match h.process_left_stick left_x left_y with
  | none => none
  | some lres =>
      match lres.2.process_right_stick right_x right_y with
      | none => none
      | some rres => some ((lres.1, rres.1), rres.2)

/-- Input manager state: `src/input/mod.rs`. -/
structure InputManager where
  digital_handler : DigitalInputHandler
  analog_handler : AnalogInputHandler
  socd_handler : SocdHandler
  lock_handler : LockHandler
  state : ControllerState

/-- `InputManager::new`. -/
def InputManager.new : InputManager :=
  { digital_handler := DigitalInputHandler.new
    analog_handler := AnalogInputHandler.new
    socd_handler := SocdHandler.new
    lock_handler := LockHandler.new
    state := ControllerState.new }

/-- `InputManager::with_handlers`. -/
def InputManager.with_handlers (digital_handler : DigitalInputHandler)
    (analog_handler : AnalogInputHandler) (socd_handler : SocdHandler)
    (lock_handler : LockHandler) : InputManager :=
  { digital_handler := digital_handler
    analog_handler := analog_handler
    socd_handler := socd_handler
    lock_handler := lock_handler
    state := ControllerState.new }

/-- `InputManager::poll`: lock update, digital debounce, SOCD resolution (the
digital D-pad array `[up,down,left,right]` is passed as `(left,right,up,down)`),
lock masking, analog processing, then the snapshot is assembled; `none`
propagates an analog-stage panic. -/
def InputManager.poll (m : InputManager) (digital_pins : List Bool) (analog_values : List Nat)
    (lock_pin : Bool) : Option (ControllerState × InputManager) :=
  let lockh := m.lock_handler.update_lock_state lock_pin
  let dres := m.digital_handler.update digital_pins
  let dpad := dres.1.2
  let sres := m.socd_handler.resolve (dpad.getD 2 false) (dpad.getD 3 false)
    (dpad.getD 0 false) (dpad.getD 1 false)
  let locked_buttons := lockh.process dres.1.1
  match m.analog_handler.update analog_values with
  | none => none
  | some ares =>
      let st : ControllerState :=
        { button_states := locked_buttons
          dpad_states := [sres.1.2.2.1, sres.1.2.2.2, sres.1.1, sres.1.2.1]
          left_stick := ares.1.1
          right_stick := ares.1.2 }
      some (st,
        { digital_handler := dres.2
          analog_handler := ares.2
          socd_handler := sres.2
          lock_handler := lockh
          state := st })

/-- `InputManager::to_report`. -/
def InputManager.to_report (m : InputManager) : SwitchProReport :=
  m.state.to_report

/-- `InputManager::reset`: only the snapshot is replaced by the default. -/
def InputManager.reset (m : InputManager) : InputManager :=
  { m with state := ControllerState.new }

/-- C7: from a fresh `Debouncer` (reported state false, threshold 3), the sample
sequence `[false, true, true, true, true]` produces the output sequence
`[false, false, false, true, true]`. -/
theorem debounce_basic_scenario :
    (Debouncer.new.run [false, true, true, true, true]).1 =
      [false, false, false, true, true] := by
  decide

/-- C1 counterexample: for the snapshot with no buttons, D-pad up pressed and
both sticks at (128,128), `to_bytes` does NOT yield the spec's claimed bytes
`[0x00,0x00,0x00,0x00,0x80,0x80,0x80,0x80]`. -/
theorem report_assembly_bytes_cex :
    (ControllerState.to_report
      { button_states := List.replicate 14 false
        dpad_states := [true, false, false, false]
        left_stick := (128, 128)
        right_stick := (128, 128) }).to_bytes ≠
      [0, 0, 0, 0, 128, 128, 128, 128] := by
  decide

/-- C1 amended: for that snapshot the report serializes to
`[0x00,0x00,0x00,0x80,0x80,0x80,0x80,0x00]`: byte 2 carries the HAT nibble
(0 = up), the four analog stick bytes occupy bytes 3 through 6, and byte 7 is
the vendor-specific byte 0x00 — there is no dedicated padding byte. -/
theorem report_assembly_bytes :
    (ControllerState.to_report
      { button_states := List.replicate 14 false
        dpad_states := [true, false, false, false]
        left_stick := (128, 128)
        right_stick := (128, 128) }).to_bytes =
      [0, 0, 0, 128, 128, 128, 128, 0] := by
  decide

/-- C2 counterexample: `SwitchProReport::new` has `hat = 8` (released), yet
`to_bytes` does not place the value 8 in byte 2. -/
theorem hat_released_byte2_cex :
    SwitchProReport.new.hat = 8 ∧ SwitchProReport.new.to_bytes.getD 2 0 ≠ 8 := by
  decide

/-- C2 amended: for every report whose `hat` field is 8 (released), `to_bytes`
places `0x0F` — not 8 — in the low nibble of byte 2, with the high nibble
zero. -/
theorem hat_released_byte2 :
    ∀ r : SwitchProReport, r.hat = 8 →
      r.to_bytes.getD 2 0 = 15 ∧ r.to_bytes.getD 2 0 >>> 4 = 0 := by
  intro r h
  simp [SwitchProReport.to_bytes, h]

/-- C2 witness: the amended statement evaluated at `SwitchProReport::new`. -/
theorem hat_released_byte2_w :
    SwitchProReport.new.to_bytes.getD 2 0 = 15 ∧
      SwitchProReport.new.to_bytes.getD 2 0 >>> 4 = 0 :=
  hat_released_byte2 SwitchProReport.new rfl

/-- C10: `InputManager::reset` replaces only the snapshot with its default
(14 buttons false, 4 D-pad directions false, both sticks centered at
(128,128)); all four handlers are left unchanged. -/
theorem reset_only_state :
    ∀ m : InputManager,
      (m.reset).digital_handler = m.digital_handler ∧
      (m.reset).analog_handler = m.analog_handler ∧
      (m.reset).socd_handler = m.socd_handler ∧
      (m.reset).lock_handler = m.lock_handler ∧
      (m.reset).state = ControllerState.new ∧
      (m.reset).state.button_states = List.replicate 14 false ∧
      (m.reset).state.dpad_states = List.replicate 4 false ∧
      (m.reset).state.left_stick = (128, 128) ∧
      (m.reset).state.right_stick = (128, 128) :=
  fun _ => ⟨rfl, rfl, rfl, rfl, rfl, rfl, rfl, rfl, rfl⟩

/-- C8 counterexample: a `Debouncer` built with `with_threshold 0` violates
`counter < threshold` immediately after an update, since no `u8` counter can be
below 0. -/
theorem debounce_invariant_cex :
    ¬(((Debouncer.with_threshold 0).update true).2.counter <
        ((Debouncer.with_threshold 0).update true).2.threshold) := by
  decide

/-- C8 amended: for every debouncer with threshold at least 1 (the default is
3; `with_threshold 0` is excluded), after any update `counter < threshold`
holds, the threshold is unchanged, the reported state changes exactly when the
sample differs from it and the (saturating) incremented counter reaches the
threshold, and in that case the counter resets to 0. -/
theorem debounce_invariant :
    ∀ (d : Debouncer) (sample : Bool), 1 ≤ d.threshold →
      ((d.update sample).2.counter < d.threshold) ∧
      ((d.update sample).2.threshold = d.threshold) ∧
      (((d.update sample).2.current_state ≠ d.current_state) ↔
        (sample ≠ d.current_state ∧ d.threshold ≤ min (d.counter + 1) 255)) ∧
      (((d.update sample).2.current_state ≠ d.current_state) →
        (d.update sample).2.counter = 0) := by
  intro d s ht
  simp only [Debouncer.update]
  split_ifs with hs hc
  · refine ⟨by simp; omega, by simp, by simp [hs], by simp⟩
  · refine ⟨by simp; omega, by simp, by simp [hs, hc], by simp⟩
  · refine ⟨by simp; omega, by simp, by simp [hs, hc], by simp⟩

/-- C8 witness: the amended invariant evaluated on a fresh default debouncer
fed a single `true` sample. -/
theorem debounce_invariant_w :
    (Debouncer.new.update true).2.counter < Debouncer.new.threshold ∧
      (Debouncer.new.update true).2.threshold = Debouncer.new.threshold :=
  ⟨(debounce_invariant Debouncer.new true (by decide)).1,
   (debounce_invariant Debouncer.new true (by decide)).2.1⟩

/-- C6 counterexample: under LastWin on both pairs, when all four directions
are newly pressed in the same tick (no prior state), the resolver outputs
`(left, right, up, down) = (false, true, true, false)`: up wins the up/down
tie, not down as the claim states. -/
theorem lastwin_tie_cex :
    ((SocdHandler.with_methods SocdMethod.LastWin SocdMethod.LastWin).resolve
        true true true true).1 = (false, true, true, false) ∧
      ((SocdHandler.with_methods SocdMethod.LastWin SocdMethod.LastWin).resolve
        true true true true).1 ≠ (false, true, false, true) := by
  decide

/-- C6 amended: under the LastWin policy, when both directions of an opposing
pair transition to pressed in the same tick (neither was pressed on the prior
tick), right wins the left/right tie and UP — not down — wins the up/down
tie. -/
theorem lastwin_tie :
    ∀ h : SocdHandler, h.left_right_method = SocdMethod.LastWin →
      h.up_down_method = SocdMethod.LastWin →
      h.last_states = [false, false, false, false] →
      (h.resolve true true true true).1 = (false, true, true, false) := by
  intro h hlr hud hls
  simp [SocdHandler.resolve, SocdHandler.resolve_left_right, SocdHandler.resolve_up_down,
    hlr, hud, hls]

/-- C6 witness: the amended statement evaluated on a freshly constructed
LastWin/LastWin handler. -/
theorem lastwin_tie_w :
    ((SocdHandler.with_methods SocdMethod.LastWin SocdMethod.LastWin).resolve
        true true true true).1 = (false, true, true, false) :=
  lastwin_tie _ rfl rfl rfl

/-- Helper: `resolve_left_right` never reports both left and right pressed. -/
theorem resolve_left_right_safe :
    ∀ (h : SocdHandler) (l r : Bool),
      ((h.resolve_left_right l r).1 && (h.resolve_left_right l r).2) = false := by
  intro h l r
  unfold SocdHandler.resolve_left_right
  cases h.left_right_method <;> first | rfl | (split_ifs <;> rfl)

/-- Helper: `resolve_up_down` never reports both up and down pressed. -/
theorem resolve_up_down_safe :
    ∀ (h : SocdHandler) (u d : Bool),
      ((h.resolve_up_down u d).1 && (h.resolve_up_down u d).2) = false := by
  intro h u d
  unfold SocdHandler.resolve_up_down
  cases h.up_down_method <;> first | rfl | (split_ifs <;> rfl)

/-- C3: for every SOCD handler state (hence along every call sequence, whatever
the configured methods) and every input, the resolved output never has left and
right both true, nor up and down both true. -/
theorem socd_no_conflict :
    ∀ (h : SocdHandler) (l r u d : Bool),
      (((h.resolve l r u d).1.1 && (h.resolve l r u d).1.2.1) = false) ∧
      (((h.resolve l r u d).1.2.2.1 && (h.resolve l r u d).1.2.2.2) = false) := by
  intro h l r u d
  simp only [SocdHandler.resolve]
  constructor
  · by_cases hlr : (l && r) = true
    · simpa [hlr] using resolve_left_right_safe h l r
    · simp [hlr]
  · by_cases hud : (u && d) = true
    · by_cases hlr : (l && r) = true <;>
        simpa [hlr, hud] using resolve_up_down_safe _ u d
    · simp [hud]

/-- Helper: the default lock handler evaluates to the literal state with
locked buttons Home, Plus, Minus. -/
theorem lock_new_eval :
    LockHandler.new =
      { lock_active := false
        lock_pin := 33
        active_high := true
        locked_buttons :=
          [some LockableButton.Home, some LockableButton.Plus, some LockableButton.Minus, none]
        button_count := 3 } := by
  rfl

/-- Helper: with the default locked set and the lock active, `process` on a
14-entry array is exactly the three point-updates at indices 12, 9, 8. -/
theorem lock_process_active_eq (bs : List Bool) (hb : bs.length = 14) :
    (LockHandler.new.update_lock_state true).process bs =
      ((bs.set 12 false).set 9 false).set 8 false := by
  simp [lock_new_eval, LockHandler.update_lock_state, LockHandler.process,
    List.range_succ, LockableButton.to_index, hb]

/-- C9: with the lock active and the default locked-button set {Home, Plus,
Minus}, `process` forces indices 12, 9 and 8 of a 14-entry button array to
false and passes every other index through unchanged; with the lock inactive
the array passes through unchanged. -/
theorem lock_masking :
    ∀ bs : List Bool, bs.length = 14 →
      (∀ i : Nat,
        ((LockHandler.new.update_lock_state true).process bs).getD i false =
          if i = 12 ∨ i = 9 ∨ i = 8 then false else bs.getD i false) ∧
      ((LockHandler.new.update_lock_state false).process bs = bs) := by
  intro bs hb
  refine ⟨?_, rfl⟩
  intro i
  rw [lock_process_active_eq bs hb]
  by_cases h12 : i = 12 <;> by_cases h9 : i = 9 <;> by_cases h8 : i = 8 <;>
    simp [h12, h9, h8, List.getD_eq_getElem?_getD, List.getElem?_set, hb] <;>
    rw [if_neg (fun hh => h8 hh.symm), if_neg (fun hh => h9 hh.symm),
      if_neg (fun hh => h12 hh.symm)]

/-- C9 witness: the masking statement evaluated on the all-pressed 14-entry
array, at the locked index 12 and the pass-through index 0. -/
theorem lock_masking_w :
    ((LockHandler.new.update_lock_state true).process (List.replicate 14 true)).getD 12 false =
        false ∧
      ((LockHandler.new.update_lock_state true).process (List.replicate 14 true)).getD 0 false =
        (List.replicate 14 true).getD 0 false := by
  refine ⟨?_, ?_⟩
  · have h := (lock_masking (List.replicate 14 true) rfl).1 12
    simpa using h
  · have h := (lock_masking (List.replicate 14 true) rfl).1 0
    simpa using h

/-- Helper: the range mapping sends a value equal to the calibrated center to
exactly 128, for every calibration (including degenerate zero-width ranges). -/
theorem map_axis_center (c mn mx : Int) : map_axis c c mn mx = some 128 := by
  unfold map_axis
  rw [if_neg (lt_irrefl c)]
  by_cases hr : mx - c = 0
  · simp [hr]
  · simp [hr, u8_checked_add, i32_as_u8, Int.sub_self]

/-- Helper: a raw value within the deadzone of the center snaps to the center. -/
theorem apply_deadzone_center (h : AnalogInputHandler) (v c : Int)
    (hd : (v - c).natAbs < h.deadzone) : h.apply_deadzone v c = c := by
  simp [AnalogInputHandler.apply_deadzone, hd]

/-- Helper: the `f32 as i32` cast of a natural number is that number. -/
theorem f32_as_i32_natCast (n : Nat) : f32_as_i32 (n : ℚ) = (n : Int) := by
  simp [f32_as_i32, Int.floor_natCast, Nat.cast_nonneg]

/-- C4 amended: a raw axis value within center ± deadzone maps to exactly 128
in the final 0-255 output of `process_left_stick` / `process_right_stick`
whenever that stick's low-pass filter memory equals its calibrated center (in
particular on the first tick after construction); on later ticks the filter
memory can hold the output away from 128 even for in-deadzone raw values. -/
theorem analog_deadzone_center :
    ∀ (h : AnalogInputHandler) (rx ry : Nat),
      (h.left_filtered_x = (h.left_center_x : ℚ) →
        h.left_filtered_y = (h.left_center_y : ℚ) →
        ((rx : Int) - (h.left_center_x : Int)).natAbs < h.deadzone →
        ((ry : Int) - (h.left_center_y : Int)).natAbs < h.deadzone →
        (h.process_left_stick rx ry).map Prod.fst = some (128, 128)) ∧
      (h.right_filtered_x = (h.right_center_x : ℚ) →
        h.right_filtered_y = (h.right_center_y : ℚ) →
        ((rx : Int) - (h.right_center_x : Int)).natAbs < h.deadzone →
        ((ry : Int) - (h.right_center_y : Int)).natAbs < h.deadzone →
        (h.process_right_stick rx ry).map Prod.fst = some (128, 128)) := by
  intro h rx ry
  constructor
  · intro hfx hfy hdx hdy
    unfold AnalogInputHandler.process_left_stick AnalogInputHandler.process_input
    simp only [AnalogInputHandler.apply_filter]
    rw [apply_deadzone_center h _ _ hdx, apply_deadzone_center h _ _ hdy, hfx, hfy]
    have ex : ((h.left_center_x : Int) : ℚ) = (h.left_center_x : ℚ) := by push_cast; ring
    have ey : ((h.left_center_y : Int) : ℚ) = (h.left_center_y : ℚ) := by push_cast; ring
    rw [ex, ey]
    have fx : (h.left_center_x : ℚ) * (1 - h.filter_alpha) +
        (h.left_center_x : ℚ) * h.filter_alpha = (h.left_center_x : ℚ) := by ring
    have fy : (h.left_center_y : ℚ) * (1 - h.filter_alpha) +
        (h.left_center_y : ℚ) * h.filter_alpha = (h.left_center_y : ℚ) := by ring
    rw [fx, fy, f32_as_i32_natCast, f32_as_i32_natCast, map_axis_center, map_axis_center]
    simp
  · intro hfx hfy hdx hdy
    unfold AnalogInputHandler.process_right_stick AnalogInputHandler.process_input
    simp only [AnalogInputHandler.apply_filter]
    rw [apply_deadzone_center h _ _ hdx, apply_deadzone_center h _ _ hdy, hfx, hfy]
    have ex : ((h.right_center_x : Int) : ℚ) = (h.right_center_x : ℚ) := by push_cast; ring
    have ey : ((h.right_center_y : Int) : ℚ) = (h.right_center_y : ℚ) := by push_cast; ring
    rw [ex, ey]
    have fx : (h.right_center_x : ℚ) * (1 - h.filter_alpha) +
        (h.right_center_x : ℚ) * h.filter_alpha = (h.right_center_x : ℚ) := by ring
    have fy : (h.right_center_y : ℚ) * (1 - h.filter_alpha) +
        (h.right_center_y : ℚ) * h.filter_alpha = (h.right_center_y : ℚ) := by ring
    rw [fx, fy, f32_as_i32_natCast, f32_as_i32_natCast, map_axis_center, map_axis_center]
    simp

set_option maxHeartbeats 1000000 in
/-- C4 counterexample: from a fresh handler, first processing the left stick at
raw (1000, 512) and then at raw (512, 512) — the latter inside the deadzone
512 ± 50 on both axes — yields x-output 150, not the center 128: the low-pass
filter memory left by the first tick keeps an in-deadzone raw value away from
center, refuting the claim that this holds on every tick. -/
theorem analog_deadzone_center_cex :
    (((AnalogInputHandler.new.process_left_stick 1000 512).bind
        (fun r => r.2.process_left_stick 512 512)).map Prod.fst = some (150, 128)) ∧
      (((AnalogInputHandler.new.process_left_stick 1000 512).bind
        (fun r => r.2.process_left_stick 512 512)).map Prod.fst ≠ some (128, 128)) := by
  have t1 : AnalogInputHandler.new.process_left_stick 1000 512 =
      some ((160, 128),
        { AnalogInputHandler.new with left_filtered_x := 3217/5, left_filtered_y := 512 }) := by
    unfold AnalogInputHandler.process_left_stick AnalogInputHandler.process_input
    norm_num [AnalogInputHandler.new, AnalogInputHandler.apply_deadzone,
      AnalogInputHandler.apply_filter, f32_as_i32, map_axis, i32_as_u8,
      u8_checked_add, u8_checked_sub]
    rw [show Int.tdiv 16637 511 = 32 from by decide,
      show ((32 : Int) % 256).toNat = 32 from rfl]
    norm_num
  have t2 : (({ AnalogInputHandler.new with
        left_filtered_x := 3217/5, left_filtered_y := 512 } :
        AnalogInputHandler).process_left_stick 512 512).map Prod.fst = some (150, 128) := by
    unfold AnalogInputHandler.process_left_stick AnalogInputHandler.process_input
    norm_num [AnalogInputHandler.new, AnalogInputHandler.apply_deadzone,
      AnalogInputHandler.apply_filter, f32_as_i32, map_axis, i32_as_u8,
      u8_checked_add, u8_checked_sub]
    rw [show Int.tdiv 11557 511 = 22 from by decide,
      show ((22 : Int) % 256).toNat = 22 from rfl]
    norm_num
  rw [t1]
  refine ⟨by simpa using t2, by simp [t2]⟩

/-- C4 witness: the amended statement evaluated on a fresh handler at the
centered raw input (512, 512), for both sticks. -/
theorem analog_deadzone_center_w :
    (AnalogInputHandler.new.process_left_stick 512 512).map Prod.fst = some (128, 128) ∧
      (AnalogInputHandler.new.process_right_stick 512 512).map Prod.fst = some (128, 128) :=
  ⟨(analog_deadzone_center AnalogInputHandler.new 512 512).1
      (by norm_num [AnalogInputHandler.new]) (by norm_num [AnalogInputHandler.new])
      (by norm_num [AnalogInputHandler.new]) (by norm_num [AnalogInputHandler.new]),
   (analog_deadzone_center AnalogInputHandler.new 512 512).2
      (by norm_num [AnalogInputHandler.new]) (by norm_num [AnalogInputHandler.new])
      (by norm_num [AnalogInputHandler.new]) (by norm_num [AnalogInputHandler.new])⟩

set_option maxHeartbeats 1000000 in
/-- C5: `InputManager::poll` is not panic-free.  From a freshly constructed
manager, polling with `digital_pins = []`, `analog_values = [65535, 512, 512,
512]` (a valid `u16` reading far above the calibrated maximum) and `lock_pin =
false` reaches `128 + ((x_filtered - center) * 127 / range) as u8` with the
cast value 236, so the `u8` addition overflows (364 > 255): a debug build
panics there (modelled as `none`; a release build would silently wrap). -/
theorem poll_panics_on_out_of_range_adc :
    InputManager.new.poll [] [65535, 512, 512, 512] false = none := by
  have hp : AnalogInputHandler.new.process_left_stick 65535 512 = none := by
    unfold AnalogInputHandler.process_left_stick AnalogInputHandler.process_input
    norm_num [AnalogInputHandler.new, AnalogInputHandler.apply_deadzone,
      AnalogInputHandler.apply_filter, f32_as_i32, map_axis, i32_as_u8,
      u8_checked_add, u8_checked_sub]
    rw [show Int.tdiv 2475357 511 = 4844 from by decide,
      show ((4844 : Int) % 256).toNat = 236 from rfl]
    norm_num
  have ha : AnalogInputHandler.new.update [65535, 512, 512, 512] = none := by
    unfold AnalogInputHandler.update
    simp [hp]
  unfold InputManager.poll
  rw [show InputManager.new.analog_handler = AnalogInputHandler.new from rfl, ha]
